import Mathlib

/-!
Verification of the Novatek dash-cam GPS extraction pipeline.

This file gives a shallow embedding in Lean 4 of the two Python modules of
the repository:

* `nvtk_mp42gpx.py` — the MP4/box ("atom") walker, the vendor GPS index
  reader and the fixed-point GPS record decoder (`get_atom_info`,
  `get_gps_atom_info`, `get_gps_atom`, `extract_gpx`, together with the
  helpers `fix_time`, `fix_coordinates`, `fix_speed`);
* `extract_photos.py` — the per-frame interpolation and filtering layer
  (`lerp`, `lerp_point`, `ignore_frame`, and the prev/next bookkeeping of
  its `main` loop).

Modelling conventions:

* a file is a `List Nat` of byte values; `f.read`/`struct.unpack` become
  bounds-checked list slicing;
* Python floats are modelled as exact rationals (`ℚ`); IEEE-754 single
  precision values stored in the records are decoded bit-exactly into `ℚ`
  by `f32le` (NaN/infinity payloads, which no claim touches, are decoded
  by the same formula as normal numbers);
* Python's `datetime` validation is modelled by `fix_time` returning
  `Option DateTime` (the timezone object is carried by the Python code but
  never inspected, so it is dropped);
* Python's `%` on floats (floored modulus) is modelled by `pymod`;
* the unbounded `while` loops of `extract_gpx` are modelled by
  fuel-indexed structural recursion; the wrappers supply fuel that is
  provably sufficient for every terminating run, and exhausted fuel (which
  corresponds to a Python-level non-termination or uncaught exception) is
  mapped to `Except.error`.
-/

attribute [local semireducible] Rat.mul Rat.add Rat.sub Rat.inv Rat.ofScientific

set_option maxRecDepth 8000

/-- Python's `%` on floats: `a % b = a - b * floor (a / b)` (floored modulus,
matching CPython for finite operands). -/
def pymod (a b : ℚ) : ℚ := a - b * ⌊a / b⌋

/-- Little-endian unsigned 32-bit integer read at index `i` (out-of-range
bytes read as 0; all uses are bounds-guarded). -/
def u32leAt (l : List Nat) (i : Nat) : Nat :=
  l.getD i 0 + 256 * (l.getD (i + 1) 0 + 256 * (l.getD (i + 2) 0 + 256 * l.getD (i + 3) 0))

/-- Big-endian unsigned 32-bit integer read at index `i`. -/
def u32beAt (l : List Nat) (i : Nat) : Nat :=
  l.getD (i + 3) 0 + 256 * (l.getD (i + 2) 0 + 256 * (l.getD (i + 1) 0 + 256 * l.getD i 0))

/-- Exact rational value of an IEEE-754 binary32 number given its 32-bit
pattern: sign / biased exponent / mantissa fields. -/
def f32le (n : Nat) : ℚ :=
  let sign : ℚ := if n / 2 ^ 31 % 2 = 1 then -1 else 1
  let e : ℕ := n / 2 ^ 23 % 2 ^ 8
  let m : ℕ := n % 2 ^ 23
  if e = 0 then sign * (m : ℚ) / 2 ^ 149
  else sign * ((2 ^ 23 + m : ℕ) : ℚ) * 2 ^ e / 2 ^ 150

/-- A calendar timestamp as produced by `fix_time` (Python
`datetime.datetime`; the timezone is never inspected downstream and is
dropped). -/
structure DateTime where
  year : Nat
  month : Nat
  day : Nat
  hour : Nat
  minute : Nat
  second : Nat
deriving DecidableEq

/-- Gregorian leap-year test (Python `calendar`/`datetime` rule). -/
def isLeapYear (y : Nat) : Bool :=
  if y % 400 = 0 then true else if y % 100 = 0 then false else y % 4 == 0

/-- Number of days of month `m` in year `y` (Python `datetime` validity). -/
def daysInMonth (y m : Nat) : Nat :=
  if m = 2 then (if isLeapYear y then 29 else 28)
  else if m = 4 ∨ m = 6 ∨ m = 9 ∨ m = 11 then 30
  else 31

/-- `fix_time` from `nvtk_mp42gpx.py`: absolute year is `2000 + year`; the
result is `none` exactly when Python's `datetime` constructor would raise
(out-of-range calendar field), which the caller catches. -/
def fix_time (hour minute second year month day : Nat) : Option DateTime :=
  let y := 2000 + year
  if y ≤ 9999 ∧ 1 ≤ month ∧ month ≤ 12 ∧ 1 ≤ day ∧ day ≤ daysInMonth y month ∧
      hour ≤ 23 ∧ minute ≤ 59 ∧ second ≤ 59 then
    some ⟨y, month, day, hour, minute, second⟩
  else none

/-- `fix_coordinates` from `nvtk_mp42gpx.py`: decode the DDDMM.MMMM
fixed-point coordinate; the hemisphere is the raw byte read from the
record (83 = `'S'`, 87 = `'W'` negate the result). -/
def fix_coordinates (hemisphere : Nat) (coordinate : ℚ) : ℚ :=
  let minutes := pymod coordinate 100
  let degrees := coordinate - minutes
  let c := degrees / 100 + minutes / 60
  if hemisphere = 83 ∨ hemisphere = 87 then -c else c

/-- `fix_speed` from `nvtk_mp42gpx.py`: knots to metres per second. -/
def fix_speed (speed : ℚ) : ℚ := speed * (514444 / 1000000)

/-- A decoded GPS sample (`GpsPoint` namedtuple of `nvtk_mp42gpx.py`). -/
structure GpsPoint where
  lat : ℚ
  lon : ℚ
  time : DateTime
  speed : ℚ
  bearing : ℚ
deriving DecidableEq

/-- Byte string `"free"`. -/
def freeTag : List Nat := [102, 114, 101, 101]

/-- Byte string `"GPS "`. -/
def gpsMagic : List Nat := [71, 80, 83, 32]

/-- Byte string `"moov"`. -/
def moovTag : List Nat := [109, 111, 111, 118]

/-- Byte string `"gps "`. -/
def gpsTag : List Nat := [103, 112, 115, 32]

/-- `get_atom_info` from `nvtk_mp42gpx.py`: read an 8-byte atom header at
`pos` (big-endian size, 4-byte type tag); when fewer than 8 bytes remain
the `struct.error` is caught and `(0, '')` is returned. -/
def get_atom_info (file : List Nat) (pos : Nat) : Nat × List Nat :=
  if pos + 8 ≤ file.length then (u32beAt file pos, (file.drop (pos + 4)).take 4)
  else (0, [])

/-- `get_gps_atom_info` from `nvtk_mp42gpx.py`: read an 8-byte index entry
`(absolute position, byte size)` at `pos`; fewer than 8 bytes raise an
uncaught `struct.error`, modelled by `none`. -/
def get_gps_atom_info (file : List Nat) (pos : Nat) : Option (Nat × Nat) :=
  if pos + 8 ≤ file.length then some (u32beAt file pos, u32beAt file (pos + 4))
  else none

/-- `get_gps_atom` from `nvtk_mp42gpx.py`: decode the record an index entry
points at.  Returns `none` ("no fix", slot stays empty) when the record is
oversized, truncated, has a sub-header mismatch (size/type/magic), an
invalid calendar date, or an inactive (`≠ 'A'`) status flag. -/
def get_gps_atom (file : List Nat) (atom_pos atom_size : Nat) : Option GpsPoint :=
  if 100000 < atom_size then none
  else
    let data := (file.drop atom_pos).take atom_size
    if data.length < 12 then none
    else
      let atom_size1 := u32beAt data 0
      let atom_type := (data.drop 4).take 4
      let magic := (data.drop 8).take 4
      if atom_size1 ≠ atom_size ∨ atom_type ≠ freeTag ∨ magic ≠ gpsMagic then none
      else if data.length < 60 then none
      else
        let hour := u32leAt data 16
        let minute := u32leAt data 20
        let second := u32leAt data 24
        let year := u32leAt data 28
        let month := u32leAt data 32
        let day := u32leAt data 36
        let active := data.getD 40 0
        let latitude_b := data.getD 41 0
        let longitude_b := data.getD 42 0
        let latitude := f32le (u32leAt data 44)
        let longitude := f32le (u32leAt data 48)
        let speed := f32le (u32leAt data 52)
        let bearing := f32le (u32leAt data 56)
        match fix_time hour minute second year month day with
        | none => none
        | some time =>
          if active ≠ 65 then none
          else some ⟨fix_coordinates latitude_b latitude,
                     fix_coordinates longitude_b longitude,
                     time, fix_speed speed, bearing⟩

/-- The inner `while gps_offset < sub_offset + sub_atom_size` loop of
`extract_gpx` (fuel-indexed): read an 8-byte index entry, decode its
record, append the result (possibly `none`), advance by 8. -/
def gpsLoopAux (file : List Nat) (bound : Nat) :
    Nat → Nat → Except Unit (List (Option GpsPoint))
  | 0, _ => .error ()
  | fuel + 1, off =>
    if off < bound then
      match get_gps_atom_info file off with
      | none => .error ()
      | some (pos, size) =>
        match gpsLoopAux file bound fuel (off + 8) with
        | .error e => .error e
        | .ok rest => .ok (get_gps_atom file pos size :: rest)
    else .ok []

/-- The GPS index loop with sufficient fuel (the Python loop advances by 8
each iteration, so `bound + 1` iterations always suffice). -/
def gpsLoop (file : List Nat) (bound off : Nat) : Except Unit (List (Option GpsPoint)) :=
  gpsLoopAux file bound (bound + 1) off

/-- The sequence of 8-byte index entries the GPS loop reads (same traversal
as `gpsLoopAux`, without decoding); `none` when an entry read would raise. -/
def gpsEntriesAux (file : List Nat) (bound : Nat) :
    Nat → Nat → Option (List (Nat × Nat))
  | 0, _ => none
  | fuel + 1, off =>
    if off < bound then
      match get_gps_atom_info file off with
      | none => none
      | some e =>
        match gpsEntriesAux file bound fuel (off + 8) with
        | none => none
        | some rest => some (e :: rest)
    else some []

/-- Entry list of the GPS index region, with the same fuel as `gpsLoop`. -/
def gpsEntries (file : List Nat) (bound off : Nat) : Option (List (Nat × Nat)) :=
  gpsEntriesAux file bound (bound + 1) off

/-- The `while sub_offset < offset + atom_size` loop of `extract_gpx` over
the children of a `moov` atom: a `gps ` child's payload (16 bytes past the
child's start) is decoded entry by entry; every child advances the cursor
by its declared size.  A zero-size child makes the Python loop spin
forever; exhausted fuel maps that to `.error`. -/
def moovLoop (file : List Nat) (endPos : Nat) :
    Nat → Nat → Except Unit (List (Option GpsPoint))
  | 0, _ => .error ()
  | fuel + 1, sub_offset =>
    if sub_offset < endPos then
      let info := get_atom_info file sub_offset
      if info.2 = gpsTag then
        match gpsLoop (file) (sub_offset + info.1) (16 + sub_offset) with
        | .error e => .error e
        | .ok pts =>
          match moovLoop file endPos fuel (sub_offset + info.1) with
          | .error e => .error e
          | .ok rest => .ok (pts ++ rest)
      else moovLoop file endPos fuel (sub_offset + info.1)
    else .ok []

/-- Accumulated result of the top-level walk: the track (one optional
sample per index entry) plus, as specification-level instrumentation, the
trace of `(position, size, type)` top-level atom headers that were walked. -/
structure ExtractAcc where
  track : List (Option GpsPoint)
  atoms : List (Nat × Nat × List Nat)
deriving DecidableEq

/-- The top-level `while True` loop of `extract_gpx`: read a header at
`offset`; `size = 0` (including any read of fewer than 8 bytes) ends the
walk; a `moov` atom has its children scanned for GPS data; every atom
advances `offset` by its declared size. -/
def topLoop (file : List Nat) : Nat → Nat → ExtractAcc → Except Unit ExtractAcc
  | 0, _, _ => .error ()
  | fuel + 1, offset, acc =>
    let info := get_atom_info file offset
    if info.1 = 0 then .ok acc
    else
      let acc' : ExtractAcc := ⟨acc.track, acc.atoms ++ [(offset, info.1, info.2)]⟩
      if info.2 = moovTag then
        match moovLoop file (offset + info.1) (offset + info.1 + 1) (offset + 8) with
        | .error e => .error e
        | .ok pts => topLoop file fuel (offset + info.1) ⟨acc'.track ++ pts, acc'.atoms⟩
      else topLoop file fuel (offset + info.1) acc'

/-- `extract_gpx` from `nvtk_mp42gpx.py` (the GPX text rendering, which
does not affect the returned data, is omitted).  Fuel `file.length + 2`
suffices because every iteration either stops or advances by at least 1. -/
def extract_gpx (file : List Nat) : Except Unit ExtractAcc :=
  topLoop file (file.length + 2) 0 ⟨[], []⟩

/-- Track component of an extraction result (`none` on error). -/
def trackOf (r : Except Unit ExtractAcc) : Option (List (Option GpsPoint)) :=
  match r with
  | .ok a => some a.track
  | .error _ => none

/-- Atom-trace component of an extraction result (`none` on error). -/
def atomsOf (r : Except Unit ExtractAcc) : Option (List (Nat × Nat × List Nat)) :=
  match r with
  | .ok a => some a.atoms
  | .error _ => none

/-- A GPS sample as seen by the interpolation layer of
`extract_photos.py`: identical to `GpsPoint` except that the timestamp is
modelled as rational seconds on the timeline (Python `datetime`
subtraction / `timedelta` addition become rational arithmetic). -/
structure QPoint where
  lat : ℚ
  lon : ℚ
  time : ℚ
  speed : ℚ
  bearing : ℚ
deriving DecidableEq

/-- `lerp` from `extract_photos.py`, verbatim: note the anchor is
`to_val`, not `from_val`. -/
def lerp (from_val to_val ratio : ℚ) : ℚ :=
  let delta_val := to_val - from_val
  to_val + delta_val * ratio

/-- `lerp_point` from `extract_photos.py`: time is interpolated from
`pt1.time`; the bearing uses the "shortest angle" formula with the
modulus applied to `shortest_angle * ratio` only (Python operator
precedence), and the scalar fields go through `lerp`. -/
def lerp_point (pt1 pt2 : QPoint) (ratio : ℚ) : QPoint :=
  let dt := pt2.time - pt1.time
  let new_time := pt1.time + dt * ratio
  let shortest_angle := pymod (pt1.bearing - pt2.bearing + 180) 360 - 180
  let new_bearing := pt1.bearing + pymod (shortest_angle * ratio) 360
  { time := new_time
    lat := lerp pt1.lat pt2.lat ratio
    lon := lerp pt1.lon pt2.lon ratio
    speed := lerp pt1.speed pt2.speed ratio
    bearing := new_bearing }

/-- `ignore_frame` from `extract_photos.py`.  The haversine distance comes
from an external library (excluded collaborator), so it is abstracted as
the parameter `dist`; the speed test precedes any distance computation. -/
def ignore_frame (dist : ℚ × ℚ → ℚ × ℚ → ℚ) (ignored_points : List (ℚ × ℚ × ℚ))
    (point : QPoint) : Bool :=
  if point.speed < 4 then true
  else
    let p2 := (point.lat, point.lon)
    ignored_points.any fun z => decide (dist (z.1, z.2.1) p2 < z.2.2)

/-- The per-frame output step of `main` in `extract_photos.py` (lines
205-217): when `ignore_frame` holds, no geotag is written and no file is
renamed; otherwise the interpolated point's fields are emitted. -/
def frameOutput (dist : ℚ × ℚ → ℚ × ℚ → ℚ) (ignored_points : List (ℚ × ℚ × ℚ))
    (point : QPoint) : Option (ℚ × ℚ × ℚ × ℚ) :=
  if ignore_frame dist ignored_points point then none
  else some (point.lat, point.lon, point.time, point.bearing)

/-- The prev/next bookkeeping of the `for gps_index, gps_point in
enumerate(gps_data)` loop of `main` (lines 192-221): `none` slots are
skipped, and for each decoded sample the pair `(prev_gps_point,
gps_point)` handed to `lerp_point` is recorded — with the first available
sample substituted for a missing `prev`. -/
def tagPairs : List (Option QPoint) → Option QPoint → List (QPoint × QPoint)
  | [], _ => []
  | none :: rest, prev => tagPairs rest prev
  | some g :: rest, prev => (prev.getD g, g) :: tagPairs rest (some g)

/-- Modelled from the spec: the DDDMM.MMMM fixed-point *encoder* (the
repository only contains the decoder `fix_coordinates`; §8 of the spec
states the round-trip property for "encoding to DDDMM.MMMM fixed point
(with correct hemisphere byte)").  The integer degrees occupy the digits
above the two integer minute digits, minutes are sixtieths of the
fractional degrees, and the hemisphere byte is `'S'` (83) for negative
values and `'N'` (78) otherwise. -/
def encode_coordinate (d : ℚ) : Nat × ℚ :=
  (if d < 0 then 83 else 78, (⌊|d|⌋ : ℚ) * 100 + (|d| - (⌊|d|⌋ : ℚ)) * 60)

/-- The synthetic container of the end-to-end scenario: a 40-byte `moov`
atom holding a 32-byte `gps ` child with two index entries (offsets 48 and
124, sizes 76), a 160-byte filler atom, then the two records: both carry
raw coordinates 3713.484 (f32) / 145.9 (f32) with hemispheres `'N'`/`'E'`,
the first with `active = 'A'`, the second with `active = 'V'`. -/
def scenarioFile : List Nat :=
  [0, 0, 0, 40, 109, 111, 111, 118, 0, 0, 0, 32, 103, 112, 115, 32, 0, 0, 0, 0,
   0, 0, 0, 0, 0, 0, 0, 48, 0, 0, 0, 76, 0, 0, 0, 124, 0, 0, 0, 76,
   0, 0, 0, 160, 115, 107, 105, 112, 0, 0, 0, 76, 102, 114, 101, 101, 71, 80, 83, 32,
   0, 0, 0, 0, 10, 0, 0, 0, 30, 0, 0, 0, 15, 0, 0, 0, 23, 0, 0, 0,
   6, 0, 0, 0, 15, 0, 0, 0, 65, 78, 69, 0, 190, 23, 104, 69, 102, 230, 17, 67,
   0, 0, 32, 65, 0, 0, 246, 66, 0, 0, 0, 0, 0, 0, 0, 0, 0, 0, 0, 0,
   0, 0, 0, 0, 0, 0, 0, 76, 102, 114, 101, 101, 71, 80, 83, 32, 0, 0, 0, 0,
   10, 0, 0, 0, 30, 0, 0, 0, 15, 0, 0, 0, 23, 0, 0, 0, 6, 0, 0, 0,
   15, 0, 0, 0, 86, 78, 69, 0, 190, 23, 104, 69, 102, 230, 17, 67, 0, 0, 32, 65,
   0, 0, 246, 66, 0, 0, 0, 0, 0, 0, 0, 0, 0, 0, 0, 0, 0, 0, 0, 0]

/-- Whether a track slot holds a sample whose coordinates are within
10⁻³ degrees of the scenario's expected `(37.2247, 1.7650)`. -/
def slotNearScenario (s : Option GpsPoint) : Bool :=
  match s with
  | some p => decide (|p.lat - 372247 / 10000| < 1 / 1000 ∧ |p.lon - 17650 / 10000| < 1 / 1000)
  | none => false

/-- Index region used by the C5 witness: one entry at offset 0 pointing at
a record (offset 8, size 16) whose magic reads `"XPS "` instead of
`"GPS "`. -/
def badHeaderFile : List Nat :=
  [0, 0, 0, 8, 0, 0, 0, 16,
   0, 0, 0, 16, 102, 114, 101, 101, 88, 80, 83, 32, 0, 0, 0, 0]

/-- A 12-byte file whose first atom declares size 4 (smaller than a
header), followed by a second parseable atom. -/
def undersizeFile : List Nat := [0, 0, 0, 4, 0, 0, 0, 8, 97, 98, 99, 100]

/-- An 8-byte file whose single atom declares size 100, far beyond the end
of the file. -/
def oversizeFile : List Nat := [0, 0, 0, 100, 97, 98, 99, 100]

/-! ## Helper lemmas -/

theorem topLoop_stop (file : List Nat) (offset : Nat) (acc : ExtractAcc) (fuel : Nat)
    (hshort : file.length < offset + 8) (hfuel : 1 ≤ fuel) :
    topLoop file fuel offset acc = .ok acc := by
  obtain ⟨n, rfl⟩ : ∃ n, fuel = n + 1 := ⟨fuel - 1, by omega⟩
  have h : get_atom_info file offset = (0, []) := by
    rw [get_atom_info, if_neg (by omega)]
  simp [topLoop, h]

theorem gpsLoopAux_eq_map (file : List Nat) (bound : Nat) :
    ∀ (fuel off : Nat) (es : List (Nat × Nat)),
      gpsEntriesAux file bound fuel off = some es →
      gpsLoopAux file bound fuel off = .ok (es.map fun e => get_gps_atom file e.1 e.2) := by
  intro fuel
  induction fuel with
  | zero => intro off es h; simp [gpsEntriesAux] at h
  | succ n ih =>
    intro off es h
    simp only [gpsEntriesAux] at h
    simp only [gpsLoopAux]
    by_cases hb : off < bound
    · simp only [if_pos hb] at h ⊢
      cases hinfo : get_gps_atom_info file off with
      | none => simp [hinfo] at h
      | some e =>
        obtain ⟨pos, size⟩ := e
        simp only [hinfo] at h ⊢
        cases hrec : gpsEntriesAux file bound n (off + 8) with
        | none => simp [hrec] at h
        | some rest =>
          simp only [hrec, Option.some.injEq] at h
          subst h
          rw [ih (off + 8) rest hrec]
          rfl
    · simp only [if_neg hb] at h ⊢
      simp only [Option.some.injEq] at h
      subst h
      rfl

theorem gpsLoop_eq_map (file : List Nat) (bound off : Nat) (es : List (Nat × Nat))
    (h : gpsEntries file bound off = some es) :
    gpsLoop file bound off = .ok (es.map fun e => get_gps_atom file e.1 e.2) :=
  gpsLoopAux_eq_map file bound (bound + 1) off es h

theorem get_gps_atom_none_of_bad_header (file : List Nat) (pos size : Nat)
    (hlen : ¬ ((file.drop pos).take size).length < 12)
    (hbad : u32beAt ((file.drop pos).take size) 0 ≠ size ∨
            (((file.drop pos).take size).drop 4).take 4 ≠ freeTag ∨
            (((file.drop pos).take size).drop 8).take 4 ≠ gpsMagic) :
    get_gps_atom file pos size = none := by
  by_cases h1 : 100000 < size
  · simp only [get_gps_atom]
    rw [if_pos h1]
  · simp only [get_gps_atom]
    rw [if_neg h1, if_neg hlen, if_pos hbad]

theorem listGetMap {α β : Type} (f : α → β) :
    ∀ (l : List α) (i : Nat), (l.map f).get? i = (l.get? i).map f
  | [], _ => by simp
  | _ :: _, 0 => rfl
  | _ :: l, i + 1 => listGetMap f l i

theorem tagPairs_leading_gap (g : QPoint) (rest : List (Option QPoint)) :
    ∀ k : Nat, tagPairs (List.replicate k none ++ some g :: rest) none =
      (g, g) :: tagPairs rest (some g) := by
  intro k
  induction k with
  | zero => rfl
  | succ n ih => simpa [List.replicate_succ, tagPairs] using ih

theorem pymod_self_diff_bearing (b r : ℚ) :
    b + pymod ((pymod (b - b + 180) 360 - 180) * r) 360 = b := by
  have h1 : b - b + 180 = (180 : ℚ) := by ring
  rw [h1, show pymod 180 360 = 180 from by decide]
  have h2 : ((180 : ℚ) - 180) * r = 0 := by ring
  rw [h2, show pymod 0 360 = 0 from by decide]
  ring

/-! ## Claims -/

/-- C1: the claim says scalar interpolation satisfies
`value = prev + (next - prev) * ratio`, reproducing `prev` at `ratio = 0`.
The code's `lerp` instead anchors at `to_val`: at `ratio = 0` it returns
`next`'s value (10, not 0), and at `ratio = 1/2` it returns 15 where the
claimed formula gives 5. -/
theorem lerp_anchors_next_not_prev :
    lerp 0 10 0 = 10 ∧ lerp 0 10 (1 / 2) = 15 := by
  constructor <;> norm_num [lerp]

/-- C2: interpolating bearings 350° and 10° at ratio 1/2 with the code's
formula yields 700 — neither approximately 0 nor inside `[0, 360)`: the
code subtracts the bearings in the wrong order and applies `% 360` to
`shortest_angle * ratio` instead of to the final sum. -/
theorem bearing_interp_escapes_range :
    (lerp_point ⟨0, 0, 0, 0, 350⟩ ⟨0, 0, 1, 0, 10⟩ (1 / 2)).bearing = 700 ∧
    ¬ (lerp_point ⟨0, 0, 0, 0, 350⟩ ⟨0, 0, 1, 0, 10⟩ (1 / 2)).bearing < 360 := by
  constructor <;> decide

/-- C3: for chronologically ordered samples and ratio in `[0, 1)` the
interpolated timestamp lies between the two samples' timestamps, and at
ratio 0 it equals `prev`'s timestamp exactly. -/
theorem interp_time_within_bounds (pt1 pt2 : QPoint) (r : ℚ)
    (ht : pt1.time ≤ pt2.time) (h0 : 0 ≤ r) (h1 : r < 1) :
    pt1.time ≤ (lerp_point pt1 pt2 r).time ∧
    (lerp_point pt1 pt2 r).time ≤ pt2.time ∧
    (lerp_point pt1 pt2 0).time = pt1.time := by
  have he : ∀ s : ℚ, (lerp_point pt1 pt2 s).time = pt1.time + (pt2.time - pt1.time) * s :=
    fun s => rfl
  refine ⟨?_, ?_, ?_⟩ <;> rw [he]
  · nlinarith
  · nlinarith
  · ring

theorem interp_time_within_bounds_witness :
    (0 : ℚ) ≤ (lerp_point ⟨0, 0, 0, 0, 0⟩ ⟨0, 0, 5, 0, 0⟩ (1 / 2)).time ∧
    (lerp_point ⟨0, 0, 0, 0, 0⟩ ⟨0, 0, 5, 0, 0⟩ (1 / 2)).time ≤ 5 ∧
    (lerp_point ⟨0, 0, 0, 0, 0⟩ ⟨0, 0, 5, 0, 0⟩ 0).time = 0 :=
  interp_time_within_bounds ⟨0, 0, 0, 0, 0⟩ ⟨0, 0, 5, 0, 0⟩ (1 / 2)
    (by norm_num) (by norm_num) (by norm_num)

/-- C4: encoding a decimal-degree value with `|d| < 180` into DDDMM.MMMM
fixed point with the correct hemisphere byte and decoding with
`fix_coordinates` reproduces the value within `1e-4` degrees (in fact
exactly, in exact rational arithmetic). -/
theorem coordinate_roundtrip_within_tolerance (d : ℚ) (hd : |d| < 180) :
    |fix_coordinates (encode_coordinate d).1 (encode_coordinate d).2 - d| ≤ 1 / 10000 := by
  have key : fix_coordinates (encode_coordinate d).1 (encode_coordinate d).2 = d := by
    have h0 : (0 : ℚ) ≤ |d| := abs_nonneg d
    have hDle : ((⌊|d|⌋ : ℚ)) ≤ |d| := Int.floor_le _
    have hDlt : |d| < (⌊|d|⌋ : ℚ) + 1 := Int.lt_floor_add_one _
    have hfloor : ⌊((⌊|d|⌋ : ℚ) * 100 + (|d| - (⌊|d|⌋ : ℚ)) * 60) / 100⌋ = ⌊|d|⌋ := by
      have h1 : ((⌊|d|⌋ : ℚ) * 100 + (|d| - (⌊|d|⌋ : ℚ)) * 60) / 100 =
          (⌊|d|⌋ : ℚ) + (|d| - (⌊|d|⌋ : ℚ)) * 60 / 100 := by ring
      rw [h1, Int.floor_int_add]
      have h2 : ⌊(|d| - (⌊|d|⌋ : ℚ)) * 60 / 100⌋ = 0 := by
        rw [Int.floor_eq_zero_iff, Set.mem_Ico]
        constructor
        · nlinarith
        · nlinarith
      rw [h2, add_zero]
    have hmod : pymod ((⌊|d|⌋ : ℚ) * 100 + (|d| - (⌊|d|⌋ : ℚ)) * 60) 100 =
        (|d| - (⌊|d|⌋ : ℚ)) * 60 := by
      rw [pymod, hfloor]; ring
    have habs : ((⌊|d|⌋ : ℚ) * 100 + (|d| - (⌊|d|⌋ : ℚ)) * 60 -
          (|d| - (⌊|d|⌋ : ℚ)) * 60) / 100 + ((|d| - (⌊|d|⌋ : ℚ)) * 60) / 60 = |d| := by
      ring
    by_cases hneg : d < 0
    · have hb : encode_coordinate d = (83, (⌊|d|⌋ : ℚ) * 100 + (|d| - (⌊|d|⌋ : ℚ)) * 60) := by
        rw [encode_coordinate, if_pos hneg]
      rw [hb]
      simp only [fix_coordinates, hmod]
      rw [if_pos (by norm_num), habs, abs_of_neg hneg]
      ring
    · have hb : encode_coordinate d = (78, (⌊|d|⌋ : ℚ) * 100 + (|d| - (⌊|d|⌋ : ℚ)) * 60) := by
        rw [encode_coordinate, if_neg hneg]
      rw [hb]
      simp only [fix_coordinates, hmod]
      rw [if_neg (by norm_num), habs, abs_of_nonneg (not_lt.mp hneg)]
  rw [key]
  simp only [sub_self, abs_zero]
  norm_num

theorem coordinate_roundtrip_within_tolerance_witness :
    |(-1234567 / 10000 : ℚ)| < 180 ∧
    |fix_coordinates (encode_coordinate (-1234567 / 10000 : ℚ)).1
        (encode_coordinate (-1234567 / 10000 : ℚ)).2 - (-1234567 / 10000 : ℚ)| ≤ 1 / 10000 :=
  have habs : |(-1234567 / 10000 : ℚ)| < 180 := by
    rw [abs_of_neg (by norm_num : (-1234567 / 10000 : ℚ) < 0)]; norm_num
  ⟨habs, coordinate_roundtrip_within_tolerance _ habs⟩

/-- C5: an index entry whose record's 12-byte sub-header parses but fails
validation (size mismatch, wrong type tag, or wrong magic) decodes to
`none` without raising; its slot in the resulting track is `none`, and
every other index entry is still decoded (the loop result is the
entrywise decode of the whole index). -/
theorem bad_subheader_yields_empty_slot_and_continues (file : List Nat) (bound off : Nat)
    (es : List (Nat × Nat)) (i pos size : Nat)
    (hes : gpsEntries file bound off = some es)
    (hentry : es.get? i = some (pos, size))
    (hlen : ¬ ((file.drop pos).take size).length < 12)
    (hbad : u32beAt ((file.drop pos).take size) 0 ≠ size ∨
            (((file.drop pos).take size).drop 4).take 4 ≠ freeTag ∨
            (((file.drop pos).take size).drop 8).take 4 ≠ gpsMagic) :
    get_gps_atom file pos size = none ∧
    gpsLoop file bound off = .ok (es.map fun e => get_gps_atom file e.1 e.2) ∧
    (es.map fun e => get_gps_atom file e.1 e.2).get? i = some none := by
  have hnone := get_gps_atom_none_of_bad_header file pos size hlen hbad
  refine ⟨hnone, gpsLoop_eq_map file bound off es hes, ?_⟩
  rw [listGetMap, hentry, Option.map_some']
  simp [hnone]

theorem bad_subheader_yields_empty_slot_and_continues_witness :
    get_gps_atom badHeaderFile 8 16 = none ∧
    gpsLoop badHeaderFile 8 0 =
      .ok (([(8, 16)] : List (Nat × Nat)).map fun e => get_gps_atom badHeaderFile e.1 e.2) ∧
    (([(8, 16)] : List (Nat × Nat)).map fun e => get_gps_atom badHeaderFile e.1 e.2).get? 0 =
      some none :=
  bad_subheader_yields_empty_slot_and_continues badHeaderFile 8 0 [(8, 16)] 0 8 16
    (by decide) (by decide) (by decide) (by decide)

/-- C6 counterexample: the claim says an atom whose declared size is
smaller than 8 (or exceeds the remaining region) makes the walker yield
exactly one structural error and no further atoms from that region.  On
`undersizeFile` the first top-level atom declares size 4 (< 8), yet the
walk produces no error at all (`extract_gpx` returns `.ok`) and walks a
second atom from the same region. -/
theorem undersized_atom_does_not_stop_walk :
    atomsOf (extract_gpx undersizeFile) =
      some [(0, 4, [0, 0, 0, 8]), (4, 8, [97, 98, 99, 100])] ∧
    trackOf (extract_gpx undersizeFile) = some [] := by
  constructor <;> decide

/-- C6 amended: there is no structural-error value at all.  A top-level
atom whose declared size exceeds the remaining file length is itself still
walked, after which the next header read reports size 0 and the walk ends
silently with only that atom added; an atom with nonzero size smaller
than 8 does not stop the walk (the walker advances by that size and keeps
parsing, as the counterexample shows). -/
theorem oversized_atom_silently_ends_walk (file : List Nat) (offset size : Nat)
    (ttag : List Nat) (acc : ExtractAcc) (fuel : Nat)
    (hinfo : get_atom_info file offset = (size, ttag)) (hsz : size ≠ 0)
    (hmoov : ttag ≠ moovTag) (hover : file.length < offset + size) (hfuel : 2 ≤ fuel) :
    topLoop file fuel offset acc = .ok ⟨acc.track, acc.atoms ++ [(offset, size, ttag)]⟩ := by
  obtain ⟨n, rfl⟩ : ∃ n, fuel = n + 1 := ⟨fuel - 1, by omega⟩
  simp only [topLoop, hinfo]
  rw [if_neg hsz, if_neg hmoov]
  exact topLoop_stop file (offset + size) _ n (by omega) (by omega)

theorem oversized_atom_silently_ends_walk_witness :
    topLoop oversizeFile 2 0 ⟨[], []⟩ =
      .ok ⟨[], [(0, 100, [97, 98, 99, 100])]⟩ :=
  oversized_atom_silently_ends_walk oversizeFile 0 100 [97, 98, 99, 100] ⟨[], []⟩ 2
    (by decide) (by decide) (by decide) (by decide) (by decide)

/-- C7: the GPS index loop produces exactly one track slot per index
entry, in index order, with `none` preserved for dropped records (it is
the entrywise decode of the index); and on the synthetic two-entry
scenario container the track has length 2 with slot 0 a sample at
approximately (37.2247, 1.7650) and slot 1 `none`. -/
theorem track_one_slot_per_entry_and_scenario :
    (∀ (file : List Nat) (bound off : Nat) (es : List (Nat × Nat)),
        gpsEntries file bound off = some es →
        gpsLoop file bound off = .ok (es.map fun e => get_gps_atom file e.1 e.2)) ∧
    (trackOf (extract_gpx scenarioFile)).map List.length = some 2 ∧
    (trackOf (extract_gpx scenarioFile)).map (List.map slotNearScenario) = some [true, false] ∧
    (trackOf (extract_gpx scenarioFile)).map (List.map Option.isSome) = some [true, false] :=
  ⟨fun file bound off es h => gpsLoop_eq_map file bound off es h,
   by decide, by decide, by decide⟩

theorem track_one_slot_per_entry_and_scenario_witness :
    gpsLoop scenarioFile 40 24 =
      .ok (([(48, 76), (124, 76)] : List (Nat × Nat)).map
        fun e => get_gps_atom scenarioFile e.1 e.2) :=
  track_one_slot_per_entry_and_scenario.1 scenarioFile 40 24 [(48, 76), (124, 76)] (by decide)

/-- C8: when the track begins with a gap (any number of leading `none`
slots and no previous sample), the first available sample is used as both
`prev` and `next` — the first interpolation pair recorded by the main loop
is `(g, g)` — and interpolating a sample with itself returns the sample
unchanged for every ratio, so the output is ratio-invariant rather than a
failure. -/
theorem leading_gap_first_sample_self_interp (k : Nat) (g : QPoint)
    (rest : List (Option QPoint)) (r : ℚ) :
    (tagPairs (List.replicate (k + 1) none ++ some g :: rest) none).head? = some (g, g) ∧
    lerp_point g g r = g := by
  constructor
  · rw [tagPairs_leading_gap g rest (k + 1)]
    rfl
  · obtain ⟨la, lo, t, s, b⟩ := g
    simp only [lerp_point, lerp, QPoint.mk.injEq]
    refine ⟨by ring, by ring, by ring, by ring, ?_⟩
    exact pymod_self_diff_bearing b r

/-- C9: when fewer than 8 bytes remain at the current top-level offset,
the header read reports size 0 and the top-level walk ends normally with
the accumulated result — no error escapes. -/
theorem truncated_header_ends_walk (file : List Nat) (offset : Nat) (acc : ExtractAcc)
    (fuel : Nat) (hshort : file.length < offset + 8) (hfuel : 1 ≤ fuel) :
    (get_atom_info file offset).1 = 0 ∧ topLoop file fuel offset acc = .ok acc := by
  refine ⟨?_, topLoop_stop file offset acc fuel hshort hfuel⟩
  rw [get_atom_info, if_neg (by omega)]

theorem truncated_header_ends_walk_witness :
    (get_atom_info [1, 2, 3] 0).1 = 0 ∧
    topLoop [1, 2, 3] 1 0 ⟨[], []⟩ = .ok ⟨[], []⟩ :=
  truncated_header_ends_walk [1, 2, 3] 0 ⟨[], []⟩ 1 (by decide) (by decide)

/-- C10: a point slower than 4 m/s is always excluded: `ignore_frame`
returns `true` before any geofence distance is consulted (for every
distance function and every zone list), so no geotag is written and no
file is renamed for that frame. -/
theorem slow_frame_always_excluded (dist : ℚ × ℚ → ℚ × ℚ → ℚ)
    (ignored_points : List (ℚ × ℚ × ℚ)) (point : QPoint) (hslow : point.speed < 4) :
    ignore_frame dist ignored_points point = true ∧
    frameOutput dist ignored_points point = none := by
  have h : ignore_frame dist ignored_points point = true := by
    rw [ignore_frame, if_pos hslow]
  exact ⟨h, by simp [frameOutput, h]⟩

theorem slow_frame_always_excluded_witness :
    ignore_frame (fun _ _ => 0) [(0, 0, 1)] ⟨0, 0, 0, 0, 0⟩ = true ∧
    frameOutput (fun _ _ => 0) [(0, 0, 1)] ⟨0, 0, 0, 0, 0⟩ = none :=
  slow_frame_always_excluded (fun _ _ => 0) [(0, 0, 1)] ⟨0, 0, 0, 0, 0⟩ (by decide)
